import Mathlib

/-!
Verification of the `audio-batch-speedup` crate (files `src/lib.rs` and
`src/main.rs`): a shallow embedding of its format-classification and
batch-processing pipeline, followed by theorems settling the specified
properties.

Modelling conventions:
* Rust `u32` bitflags become a `Nat`-valued bitset; all values involved stay
  below `2 ^ 8`, so no wraparound can occur and no explicit modulus is needed.
* A candidate file (a `walkdir` entry together with the filesystem's and the
  subprocess's behaviour on it) becomes a `FileModel` record: the bytes
  `File::open` + `read_exact` would deliver, the value of
  `path.extension().and_then(to_str)`, the `is_file` answer, and the
  deterministic outcome of the `ffmpeg` subprocess / rename / cleanup calls
  for that file.
* The rayon parallel iteration with relaxed atomic counters is modelled as a
  fold over the file list; scheduling freedom is captured by quantifying over
  permutations of the list (each file's contribution to the counters depends
  only on that file, and atomic increments commute).
-/

/-- Embedding of the `bitflags! { pub struct AudioFormat: u32 }` declaration
in `src/lib.rs`: a bitset over the eight supported formats. -/
structure AudioFormat where
  bits : Nat
deriving DecidableEq, Repr

namespace AudioFormat

/-- `const OGG = 1 << 0`. -/
def OGG : AudioFormat := ⟨1⟩

/-- `const MP3 = 1 << 1`. -/
def MP3 : AudioFormat := ⟨2⟩

/-- `const WAV = 1 << 2`. -/
def WAV : AudioFormat := ⟨4⟩

/-- `const FLAC = 1 << 3`. -/
def FLAC : AudioFormat := ⟨8⟩

/-- `const AAC = 1 << 4`. -/
def AAC : AudioFormat := ⟨16⟩

/-- `const OPUS = 1 << 5`. -/
def OPUS : AudioFormat := ⟨32⟩

/-- `const ALAC = 1 << 6`. -/
def ALAC : AudioFormat := ⟨64⟩

/-- `const WMA = 1 << 7`. -/
def WMA : AudioFormat := ⟨128⟩

/-- `const ALL = OGG | MP3 | WAV | FLAC | AAC | OPUS | ALAC | WMA`. -/
def ALL : AudioFormat := ⟨255⟩

/-- `AudioFormat::empty()` from the bitflags API (used in `main.rs`). -/
def emptySet : AudioFormat := ⟨0⟩

/-- Bitflags union `a | b` (`BitOr`, also `|=` in `main.rs`). -/
def union (a b : AudioFormat) : AudioFormat := ⟨a.bits ||| b.bits⟩

/-- Bitflags `contains`: `self.bits() & other.bits() == other.bits()`. -/
def contains (a b : AudioFormat) : Bool := a.bits &&& b.bits == b.bits

/-- Bitflags `is_empty`: `self.bits() == 0` (used in `main.rs`). -/
def isEmptySet (a : AudioFormat) : Bool := a.bits == 0

/-- `impl Default for AudioFormat` in `src/lib.rs`: the union of all eight
format flags. -/
def defaultSet : AudioFormat :=
  union (union (union (union (union (union (union OGG MP3) WAV) FLAC) AAC) OPUS) ALAC) WMA

end AudioFormat

/-- Deterministic outcome of the `Command::new("ffmpeg") ... .status()` call
for one file: either the spawn itself fails (`Err` from `status()`), or the
subprocess exits and reports success or failure. -/
inductive CmdStatus where
  | spawnErr : CmdStatus
  | exited : Bool → CmdStatus
deriving DecidableEq, Repr

/-- Model of one candidate file produced by the `WalkDir` enumeration,
together with the filesystem's and subprocess's deterministic behaviour on
it during the run:

* `path` — the file's path (rendered as a string);
* `isFile` — the answer of `path.is_file()`;
* `content` — `none` if `File::open(path)` fails, otherwise the byte
  sequence the file holds (of which `read_exact` reads the first 12);
* `extn` — the value of `path.extension().and_then(|s| s.to_str())`;
* `cmdStatus` — the outcome of the ffmpeg invocation on this file;
* `tempExists` — the answer of `output_file.exists()` after a failed
  subprocess exit;
* `renameOk` — whether `std::fs::rename(&output_file, path)` succeeds;
* `removeOk` — whether `std::fs::remove_file(&output_file)` succeeds. -/
structure FileModel where
  path : String
  isFile : Bool
  content : Option (List Nat)
  extn : Option String
  cmdStatus : CmdStatus
  tempExists : Bool
  renameOk : Bool
  removeOk : Bool
deriving DecidableEq, Repr

/-- ASCII lower-casing of one character, the effect of Rust's
`str::to_lowercase` on the ASCII-only names and extensions this program
compares against. -/
def lowerChar (c : Char) : Char :=
  if 65 ≤ c.toNat ∧ c.toNat ≤ 90 then Char.ofNat (c.toNat + 32) else c

/-- ASCII lower-casing of a string (model of `str::to_lowercase`, which
agrees with it on ASCII input). -/
def toLowerAscii (s : String) : String := ⟨s.data.map lowerChar⟩

/-- Whitespace test for the model of `str::trim` (ASCII whitespace, which
is all the surrounding CLI can reasonably pass). -/
def isWs (c : Char) : Bool := c = ' ' ∨ c = '\t' ∨ c = '\n' ∨ c = '\r'

/-- Model of `str::trim`: drop leading and trailing whitespace. -/
def trimAscii (s : String) : String :=
  ⟨(((s.data.dropWhile isWs).reverse.dropWhile isWs).reverse)⟩

/-- Splitting a character list at commas, keeping empty pieces — the
semantics of Rust's `str::split(',')`. -/
def splitComma : List Char → List (List Char)
  | [] => [[]]
  | c :: rest =>
    if c = ',' then [] :: splitComma rest
    else
      match splitComma rest with
      | [] => [[c]]
      | h :: t => (c :: h) :: t

/-- Model of `str::split(',')` on strings. -/
def splitCommas (s : String) : List String := (splitComma s.data).map (fun l => ⟨l⟩)

/-- Magic-byte phase of `detect_audio_format` (`src/lib.rs` lines 63–97):
`read_exact` into a 12-byte buffer succeeds only when the file holds at
least 12 bytes; then the signature checks run in source order, first match
winning. -/
def magic_detect (bs : List Nat) : Option AudioFormat :=
  if bs.length < 12 then none
  else if bs.take 4 = [0x4F, 0x67, 0x67, 0x53] then some AudioFormat.OGG
  else if bs.take 3 = [0x49, 0x44, 0x33] ∨
      (bs.getD 0 0 = 0xFF ∧ (bs.getD 1 0) &&& 0xF6 = 0xF2) then some AudioFormat.MP3
  else if bs.take 4 = [0x52, 0x49, 0x46, 0x46] ∧
      ((bs.drop 8).take 4 = [0x57, 0x41, 0x56, 0x45]) then some AudioFormat.WAV
  else if bs.take 4 = [0x66, 0x4C, 0x61, 0x43] then some AudioFormat.FLAC
  else if bs.take 4 = [0x30, 0x26, 0xB2, 0x75] then some AudioFormat.WMA
  else none

/-- Extension table of `detect_audio_format` (`src/lib.rs` lines 100–112):
the `match extension.to_lowercase().as_str()` arms, in source order. The
argument is the already lower-cased extension. -/
def ext_format (s : String) : Option AudioFormat :=
  if s = "ogg" then some AudioFormat.OGG
  else if s = "mp3" then some AudioFormat.MP3
  else if s = "wav" then some AudioFormat.WAV
  else if s = "flac" then some AudioFormat.FLAC
  else if s = "m4a" then some AudioFormat.AAC
  else if s = "aac" then some AudioFormat.AAC
  else if s = "opus" then some AudioFormat.OPUS
  else if s = "alac" then some AudioFormat.ALAC
  else if s = "wma" then some AudioFormat.WMA
  else none

/-- Extension-fallback phase of `detect_audio_format`: applies the table to
the lower-cased extension when one exists. -/
def ext_fallback (e : Option String) : Option AudioFormat :=
  match e with
  | some s => ext_format (toLowerAscii s)
  | none => none

/-- Embedding of `detect_audio_format` (`src/lib.rs` lines 61–115): try the
magic bytes (skipping that phase when the open fails or fewer than 12 bytes
can be read), then fall back to the lower-cased extension, else `none`. -/
def detect_audio_format (f : FileModel) : Option AudioFormat :=
  match f.content with
  | some bs =>
    match magic_detect bs with
    | some fmt => some fmt
    | none => ext_fallback f.extn
  | none => ext_fallback f.extn

/-- Per-file error cases of the worker body in `process_audio_files`
(`src/lib.rs` lines 205–224): the spawn failed, the subprocess exited
nonzero, or the rename of the temp artifact over the original failed. -/
inductive TransformError where
  | spawnFailed : TransformError
  | exitNonzero : TransformError
  | renameFailed : TransformError
deriving DecidableEq, Repr

/-- Outcome of the transform attempt on one accepted file, following the
worker body: `Err` from `status()` is a spawn failure; on a zero exit the
rename must also succeed; a nonzero exit is an error. -/
def transform_file (f : FileModel) : Except TransformError Unit :=
  match f.cmdStatus with
  | CmdStatus.spawnErr => Except.error TransformError.spawnFailed
  | CmdStatus.exited true =>
    if f.renameOk then Except.ok () else Except.error TransformError.renameFailed
  | CmdStatus.exited false => Except.error TransformError.exitNonzero

/-- Filesystem side effects of the worker body on one accepted file:
whether a rename over the original was attempted and succeeded, and whether
a `remove_file` of the temp artifact was attempted (`src/lib.rs` lines
211–224). On a nonzero exit the removal is attempted exactly when the temp
artifact exists, and its failure is only logged. -/
structure FileEffect where
  renameTried : Bool
  renameSucceeded : Bool
  removeTried : Bool
deriving DecidableEq, Repr

/-- Effects of the transform attempt per `cmdStatus`: spawn failure touches
nothing; a zero exit attempts the rename; a nonzero exit attempts only the
best-effort temp removal. -/
def transform_effect (f : FileModel) : FileEffect :=
  match f.cmdStatus with
  | CmdStatus.spawnErr => ⟨false, false, false⟩
  | CmdStatus.exited true => ⟨true, f.renameOk, false⟩
  | CmdStatus.exited false => ⟨false, false, f.tempExists⟩

/-- Acceptance test of the worker body (`src/lib.rs` lines 171–184): the
entry must (still) be a file, its format must be detected, and the detected
format must be contained in the selection. -/
def accepted (formats : AudioFormat) (f : FileModel) : Bool :=
  f.isFile &&
    (match detect_audio_format f with
     | none => false
     | some fmt => formats.contains fmt)

/-- Filesystem effects of the whole worker body on one file: a file that is
skipped (or not a file) is never touched. -/
def file_effect (formats : AudioFormat) (f : FileModel) : FileEffect :=
  if accepted formats f then transform_effect f else ⟨false, false, false⟩

/-- Classification of one file's trip through the worker body: `ignored`
(the `!path.is_file()` early return), `skippedF` (undetected or unselected
format), `erroredF` (transform attempt failed), `processedF` (transform
attempt fully succeeded). -/
inductive FileOutcome where
  | ignored : FileOutcome
  | skippedF : FileOutcome
  | erroredF : FileOutcome
  | processedF : FileOutcome
deriving DecidableEq, Repr

/-- The worker body of `process_audio_files` (`src/lib.rs` lines 169–225)
as a classification of each file. -/
def classify_file (formats : AudioFormat) (f : FileModel) : FileOutcome :=
  if !f.isFile then FileOutcome.ignored
  else
    match detect_audio_format f with
    | none => FileOutcome.skippedF
    | some fmt =>
      if !formats.contains fmt then FileOutcome.skippedF
      else
        match transform_file f with
        | Except.ok _ => FileOutcome.processedF
        | Except.error _ => FileOutcome.erroredF

/-- The two atomic counters of `process_audio_files` (`src/lib.rs` lines
162–163): `error_count` and `skipped_count`. -/
structure Counters where
  errors : Nat
  skipped : Nat
deriving DecidableEq, Repr

/-- One worker step on the counters: the `fetch_add(1, Relaxed)` performed
on the counter the file's outcome selects (none for a fully successful
transform or an ignored entry). -/
def handle_file (formats : AudioFormat) (c : Counters) (f : FileModel) : Counters :=
  match classify_file formats f with
  | FileOutcome.erroredF => { c with errors := c.errors + 1 }
  | FileOutcome.skippedF => { c with skipped := c.skipped + 1 }
  | _ => c

/-- Final counter values after processing the file list in the given order
(both counters start at `0`). -/
def run_counters (formats : AudioFormat) (files : List FileModel) : Counters :=
  files.foldl (handle_file formats) ⟨0, 0⟩

/-- Predicate: this file's trip through the worker body ends at the error
counter. -/
def erroredP (formats : AudioFormat) (f : FileModel) : Bool :=
  classify_file formats f == FileOutcome.erroredF

/-- Predicate: this file's trip through the worker body ends at the skipped
counter. -/
def skippedP (formats : AudioFormat) (f : FileModel) : Bool :=
  classify_file formats f == FileOutcome.skippedF

/-- Predicate: this file's transform attempt fully succeeds (the worker
body's only path that invokes the transform and increments no counter). -/
def processedP (formats : AudioFormat) (f : FileModel) : Bool :=
  classify_file formats f == FileOutcome.processedF

/-- Number of files whose transform attempt fully succeeded. -/
def processed_count (formats : AudioFormat) (files : List FileModel) : Nat :=
  files.countP (processedP formats)

/-- Embedding of `process_audio_files` (`src/lib.rs` lines 140–240) over an
already-enumerated file list: every per-file failure is handled inside the
worker body (incrementing a counter and moving on), and the function ends
with `Ok(())`. The model returns the final counters (which the source only
logs) for observability; the tempo multiplier is passed opaquely to the
subprocess and never influences control flow, so it is omitted. -/
def process_audio_files (formats : AudioFormat) (files : List FileModel) :
    Except String Counters :=
  Except.ok (run_counters formats files)

/-- Embedding of the per-token arm of the format-list parse loop in
`src/main.rs` (lines 46–64): trim and lower-case the token, or into the
accumulator on a recognized name, exit with an error otherwise. -/
def parse_one (acc : AudioFormat) (tok : String) : Except String AudioFormat :=
  let t := toLowerAscii (trimAscii tok)
  if t = "ogg" then Except.ok (acc.union AudioFormat.OGG)
  else if t = "mp3" then Except.ok (acc.union AudioFormat.MP3)
  else if t = "wav" then Except.ok (acc.union AudioFormat.WAV)
  else if t = "flac" then Except.ok (acc.union AudioFormat.FLAC)
  else if t = "aac" then Except.ok (acc.union AudioFormat.AAC)
  else if t = "opus" then Except.ok (acc.union AudioFormat.OPUS)
  else if t = "alac" then Except.ok (acc.union AudioFormat.ALAC)
  else if t = "wma" then Except.ok (acc.union AudioFormat.WMA)
  else Except.error ("Unsupported format specified: " ++ tok)

/-- Embedding of the selection parse in `src/main.rs` (lines 42–65): the
literal `all` (case-insensitively) yields `ALL`; otherwise the
comma-separated tokens are folded into `AudioFormat::empty()` with the
per-token arm, the first unrecognized token aborting. -/
def parse_formats (s : String) : Except String AudioFormat :=
  if toLowerAscii s = "all" then Except.ok AudioFormat.ALL
  else (splitCommas s).foldlM parse_one AudioFormat.emptySet

/-- Twelve bytes beginning with the `OggS` signature. -/
def oggHeaderBytes : List Nat := [0x4F, 0x67, 0x67, 0x53, 0, 0, 0, 0, 0, 0, 0, 0]

/-- Twelve bytes beginning with the `ID3` tag signature. -/
def id3HeaderBytes : List Nat := [0x49, 0x44, 0x33, 0, 0, 0, 0, 0, 0, 0, 0, 0]

/-- Twelve bytes matching no audio signature. -/
def plainBytes : List Nat := [0, 0, 0, 0, 0, 0, 0, 0, 0, 0, 0, 0]

/-- Scenario file `a.ogg`: a valid OggS header, readable, transform and
rename succeed. -/
def aOggFile : FileModel :=
  ⟨"a.ogg", true, some oggHeaderBytes, some "ogg", CmdStatus.exited true, false, true, true⟩

/-- Scenario file `b.txt`: no signature, no audio extension. -/
def bTxtFile : FileModel :=
  ⟨"b.txt", true, some plainBytes, some "txt", CmdStatus.exited true, false, true, true⟩

/-- Scenario file `c.mp3`: an ID3 header (the transform fields are
irrelevant, since the file is filtered out by an OGG-only selection). -/
def cMp3File : FileModel :=
  ⟨"c.mp3", true, some id3HeaderBytes, some "mp3", CmdStatus.exited true, false, true, true⟩

/-- Example file whose ffmpeg subprocess exits with a nonzero status and
leaves a temp artifact behind. -/
def dErrFile : FileModel :=
  ⟨"d.ogg", true, some oggHeaderBytes, some "ogg", CmdStatus.exited false, true, true, true⟩

/-- Example file that cannot be opened (`File::open` fails) but carries the
extension `wav`. -/
def unreadableWavFile : FileModel :=
  ⟨"u.wav", true, none, some "wav", CmdStatus.exited true, false, true, true⟩

/-- Example file holding only the four `OggS` signature bytes (shorter than
the 12-byte read) and named with extension `mp3`. -/
def shortOggFile : FileModel :=
  ⟨"s.mp3", true, some [0x4F, 0x67, 0x67, 0x53], some "mp3", CmdStatus.exited true, false, true, true⟩

/-- One fold step adds exactly the increments the file's outcome selects. -/
theorem foldl_handle_eq (formats : AudioFormat) :
    ∀ (files : List FileModel) (c : Counters),
      files.foldl (handle_file formats) c =
        ⟨c.errors + files.countP (erroredP formats),
         c.skipped + files.countP (skippedP formats)⟩ := by
  intro files
  induction files with
  | nil => intro c; simp [List.countP_nil]
  | cons f fs ih =>
    intro c
    rw [List.foldl_cons, ih]
    cases h : classify_file formats f <;>
      simp [handle_file, h, erroredP, skippedP, List.countP_cons] <;> omega

/-- The final counters count exactly the errored and the skipped files. -/
theorem run_counters_eq (formats : AudioFormat) (files : List FileModel) :
    run_counters formats files =
      ⟨files.countP (erroredP formats), files.countP (skippedP formats)⟩ := by
  rw [run_counters, foldl_handle_eq]
  simp

/-- An entry that is (still) a file never takes the early-return path of the
worker body. -/
theorem classify_ne_ignored (formats : AudioFormat) (f : FileModel)
    (h : f.isFile = true) : classify_file formats f ≠ FileOutcome.ignored := by
  cases hd : detect_audio_format f with
  | none => simp [classify_file, h, hd]
  | some fmt =>
    by_cases hc : formats.contains fmt = true
    · cases ht : transform_file f with
      | ok u => simp [classify_file, h, hd, hc, ht]
      | error e => simp [classify_file, h, hd, hc, ht]
    · simp [classify_file, h, hd, hc]

/-- Over a list of genuine files, errored, skipped and fully-processed form
a partition. -/
theorem countP_outcomes_partition (formats : AudioFormat) :
    ∀ files : List FileModel, (∀ f ∈ files, f.isFile = true) →
      files.countP (erroredP formats) + files.countP (skippedP formats)
        + files.countP (processedP formats) = files.length := by
  intro files
  induction files with
  | nil => simp
  | cons f fs ih =>
    intro h
    have hf : f.isFile = true := h f (by simp)
    have hfs : ∀ g ∈ fs, g.isFile = true := fun g hg => h g (by simp [hg])
    have hni := classify_ne_ignored formats f hf
    have hrec := ih hfs
    cases hcf : classify_file formats f with
    | ignored => exact absurd hcf hni
    | skippedF =>
      simp [List.countP_cons, erroredP, skippedP, processedP, hcf]; omega
    | erroredF =>
      simp [List.countP_cons, erroredP, skippedP, processedP, hcf]; omega
    | processedF =>
      simp [List.countP_cons, erroredP, skippedP, processedP, hcf]; omega

/-- Every magic-byte match yields one of the five signature formats. -/
theorem magic_detect_cases (bs : List Nat) (fmt : AudioFormat)
    (h : magic_detect bs = some fmt) :
    fmt = AudioFormat.OGG ∨ fmt = AudioFormat.MP3 ∨ fmt = AudioFormat.WAV ∨
      fmt = AudioFormat.FLAC ∨ fmt = AudioFormat.WMA := by
  unfold magic_detect at h
  repeat' split at h
  all_goals simp_all

/-- Every extension-table hit yields one of the eight format tags. -/
theorem ext_format_cases (s : String) (fmt : AudioFormat)
    (h : ext_format s = some fmt) :
    fmt = AudioFormat.OGG ∨ fmt = AudioFormat.MP3 ∨ fmt = AudioFormat.WAV ∨
      fmt = AudioFormat.FLAC ∨ fmt = AudioFormat.AAC ∨ fmt = AudioFormat.OPUS ∨
      fmt = AudioFormat.ALAC ∨ fmt = AudioFormat.WMA := by
  unfold ext_format at h
  repeat' split at h
  all_goals simp_all

/-- C1: for every file whose leading bytes match a known magic signature,
`detect_audio_format` returns the format determined by the signature,
independently of the file's extension. -/
theorem magic_overrides_extension (bs : List Nat) (fmt : AudioFormat)
    (h : magic_detect bs = some fmt) :
    ∀ (pth : String) (isf : Bool) (e1 e2 : Option String) (cs : CmdStatus)
      (tmp rok remok : Bool),
      detect_audio_format ⟨pth, isf, some bs, e1, cs, tmp, rok, remok⟩ = some fmt ∧
      detect_audio_format ⟨pth, isf, some bs, e1, cs, tmp, rok, remok⟩ =
        detect_audio_format ⟨pth, isf, some bs, e2, cs, tmp, rok, remok⟩ := by
  intro pth isf e1 e2 cs tmp rok remok
  constructor
  · simp [detect_audio_format, h]
  · simp [detect_audio_format, h]

/-- C1 witness: a file beginning with the `OggS` signature but named with
extension `.mp3` is classified as OGG. -/
theorem magic_overrides_extension_witness :
    magic_detect oggHeaderBytes = some AudioFormat.OGG ∧
    detect_audio_format
        ⟨"song.mp3", true, some oggHeaderBytes, some "mp3",
          CmdStatus.exited true, false, true, true⟩ = some AudioFormat.OGG :=
  ⟨by decide,
   (magic_overrides_extension oggHeaderBytes AudioFormat.OGG (by decide)
      "song.mp3" true (some "mp3") none (CmdStatus.exited true) false true true).1⟩

/-- C9: whenever `detect_audio_format` returns a format, that format is one
of the eight singleton tags — never the empty set and never a union of two
or more tags. -/
theorem detect_returns_singleton_tag (f : FileModel) (fmt : AudioFormat)
    (h : detect_audio_format f = some fmt) :
    fmt = AudioFormat.OGG ∨ fmt = AudioFormat.MP3 ∨ fmt = AudioFormat.WAV ∨
      fmt = AudioFormat.FLAC ∨ fmt = AudioFormat.AAC ∨ fmt = AudioFormat.OPUS ∨
      fmt = AudioFormat.ALAC ∨ fmt = AudioFormat.WMA := by
  have hext : ∀ e : Option String, ext_fallback e = some fmt →
      fmt = AudioFormat.OGG ∨ fmt = AudioFormat.MP3 ∨ fmt = AudioFormat.WAV ∨
        fmt = AudioFormat.FLAC ∨ fmt = AudioFormat.AAC ∨ fmt = AudioFormat.OPUS ∨
        fmt = AudioFormat.ALAC ∨ fmt = AudioFormat.WMA := by
    intro e he
    cases e with
    | none => exact absurd he (by simp [ext_fallback])
    | some s => exact ext_format_cases (toLowerAscii s) fmt he
  unfold detect_audio_format at h
  cases hc : f.content with
  | none =>
    rw [hc] at h
    rcases hext f.extn h with h1 | h1 | h1 | h1 | h1 | h1 | h1 | h1 <;> tauto
  | some bs =>
    rw [hc] at h
    cases hm : magic_detect bs with
    | none =>
      simp only [hm] at h
      rcases hext f.extn h with h1 | h1 | h1 | h1 | h1 | h1 | h1 | h1 <;> tauto
    | some fmt2 =>
      simp only [hm, Option.some.injEq] at h
      subst h
      rcases magic_detect_cases bs fmt2 hm with h1 | h1 | h1 | h1 | h1 <;> tauto

/-- C9 witness: a concrete detection result, shown to be a singleton tag by
the theorem. -/
theorem detect_returns_singleton_tag_witness :
    detect_audio_format aOggFile = some AudioFormat.OGG ∧
    (AudioFormat.OGG = AudioFormat.OGG ∨ AudioFormat.OGG = AudioFormat.MP3 ∨
      AudioFormat.OGG = AudioFormat.WAV ∨ AudioFormat.OGG = AudioFormat.FLAC ∨
      AudioFormat.OGG = AudioFormat.AAC ∨ AudioFormat.OGG = AudioFormat.OPUS ∨
      AudioFormat.OGG = AudioFormat.ALAC ∨ AudioFormat.OGG = AudioFormat.WMA) :=
  ⟨by decide, detect_returns_singleton_tag aOggFile AudioFormat.OGG (by decide)⟩

/-- C10: when the content is shorter than 12 bytes, the magic-byte phase is
skipped entirely and classification is determined solely by the lower-cased
extension lookup. -/
theorem short_read_uses_extension (f : FileModel) (bs : List Nat)
    (hc : f.content = some bs) (hlen : bs.length < 12) :
    magic_detect bs = none ∧
    detect_audio_format f = ext_fallback f.extn := by
  have hm : magic_detect bs = none := by
    unfold magic_detect
    rw [if_pos hlen]
  exact ⟨hm, by simp [detect_audio_format, hc, hm]⟩

/-- C10 witness: a file holding only the four `OggS` signature bytes but
named `.mp3` is classified from the extension, as MP3. -/
theorem short_read_uses_extension_witness :
    magic_detect [0x4F, 0x67, 0x67, 0x53] = none ∧
    detect_audio_format shortOggFile = ext_fallback shortOggFile.extn ∧
    detect_audio_format shortOggFile = some AudioFormat.MP3 :=
  ⟨(short_read_uses_extension shortOggFile [0x4F, 0x67, 0x67, 0x53] rfl (by decide)).1,
   (short_read_uses_extension shortOggFile [0x4F, 0x67, 0x67, 0x53] rfl (by decide)).2,
   by decide⟩

/-- C4 counterexample: a file that cannot be opened but whose extension is
`ogg` is classified as OGG, not as unknown — so the claim that detection on
an unreadable file always yields "unknown" is false. -/
theorem unreadable_file_not_always_unknown :
    unreadableWavFile.content = none ∧
    detect_audio_format unreadableWavFile = some AudioFormat.WAV ∧
    detect_audio_format unreadableWavFile ≠ none := by
  refine ⟨rfl, by decide, ?_⟩
  intro h
  simpa using h.symm.trans (by decide : detect_audio_format unreadableWavFile = some AudioFormat.WAV)

/-- C4 amended: for every file that cannot be opened, the classifier
swallows the error and falls back to the extension lookup; the result is
"unknown" exactly when the lower-cased extension is also unrecognized. -/
theorem unreadable_falls_back_to_extension (f : FileModel)
    (h : f.content = none) :
    detect_audio_format f = ext_fallback f.extn ∧
    (detect_audio_format f = none ↔ ext_fallback f.extn = none) := by
  have heq : detect_audio_format f = ext_fallback f.extn := by
    unfold detect_audio_format
    rw [h]
  exact ⟨heq, by rw [heq]⟩

/-- C4 amended witness: an unreadable file with extension `wav` classifies
as WAV (error swallowed, extension fallback used). -/
theorem unreadable_falls_back_to_extension_witness :
    detect_audio_format unreadableWavFile = ext_fallback unreadableWavFile.extn ∧
    detect_audio_format unreadableWavFile = some AudioFormat.WAV :=
  ⟨(unreadable_falls_back_to_extension unreadableWavFile rfl).1, by decide⟩

/-- C5: on the scenario {`a.ogg` with a valid OggS header, `b.txt` with no
signature and no audio extension, `c.mp3` with an ID3 header} under an
OGG-only selection with every attempted transform succeeding, the transform
is invoked exactly on `a.ogg` and the final counters are processed = 1,
skipped = 2, errored = 0. -/
theorem scenario_ogg_selection :
    accepted AudioFormat.OGG aOggFile = true ∧
    accepted AudioFormat.OGG bTxtFile = false ∧
    accepted AudioFormat.OGG cMp3File = false ∧
    classify_file AudioFormat.OGG aOggFile = FileOutcome.processedF ∧
    classify_file AudioFormat.OGG bTxtFile = FileOutcome.skippedF ∧
    classify_file AudioFormat.OGG cMp3File = FileOutcome.skippedF ∧
    run_counters AudioFormat.OGG [aOggFile, bTxtFile, cMp3File] = ⟨0, 2⟩ ∧
    processed_count AudioFormat.OGG [aOggFile, bTxtFile, cMp3File] = 1 := by
  decide

/-- C7: union on `AudioFormat` bitsets is commutative and idempotent, and
parsing the selection `ogg,ogg` yields the same set as parsing `ogg`. -/
theorem union_comm_idem_and_parse_dedup :
    (∀ a b : AudioFormat, a.union b = b.union a) ∧
    (∀ a : AudioFormat, a.union a = a) ∧
    parse_formats "ogg,ogg" = parse_formats "ogg" ∧
    parse_formats "ogg,ogg" = Except.ok AudioFormat.OGG := by
  refine ⟨?_, ?_, rfl, rfl⟩
  · intro a b
    unfold AudioFormat.union
    rw [Nat.lor_comm]
  · intro a
    cases a with
    | mk bits =>
      unfold AudioFormat.union
      simp

/-- C2: over a run on N genuine files, errored, skipped and fully-processed
form an exact partition (their counts sum to N), and every counter is
monotone along the run (its value over a prefix never exceeds its value over
the whole list). -/
theorem counters_partition_and_monotone (formats : AudioFormat)
    (files : List FileModel) (hall : ∀ f ∈ files, f.isFile = true) :
    (run_counters formats files).errors + (run_counters formats files).skipped
        + processed_count formats files = files.length ∧
    ∀ l r : List FileModel,
      (run_counters formats l).errors ≤ (run_counters formats (l ++ r)).errors ∧
      (run_counters formats l).skipped ≤ (run_counters formats (l ++ r)).skipped ∧
      processed_count formats l ≤ processed_count formats (l ++ r) := by
  constructor
  · simpa [run_counters_eq, processed_count] using
      countP_outcomes_partition formats files hall
  · intro l r
    refine ⟨?_, ?_, ?_⟩ <;>
      simp [run_counters_eq, processed_count, List.countP_append]

/-- C2 witness: on a concrete four-file run (one processed, two skipped, one
errored) the counts sum to 4. -/
theorem counters_partition_and_monotone_witness :
    (run_counters AudioFormat.OGG [aOggFile, bTxtFile, cMp3File, dErrFile]).errors
      + (run_counters AudioFormat.OGG [aOggFile, bTxtFile, cMp3File, dErrFile]).skipped
      + processed_count AudioFormat.OGG [aOggFile, bTxtFile, cMp3File, dErrFile] = 4 :=
  (counters_partition_and_monotone AudioFormat.OGG
    [aOggFile, bTxtFile, cMp3File, dErrFile] (by decide)).1

/-- C3: for every accepted file whose transform subprocess exits nonzero,
the file is counted as an error, the temp artifact is removed (best-effort)
exactly when it exists, and no rename over the original is attempted. -/
theorem nonzero_exit_handling (formats : AudioFormat) (f : FileModel)
    (hacc : accepted formats f = true)
    (hexit : f.cmdStatus = CmdStatus.exited false) :
    classify_file formats f = FileOutcome.erroredF ∧
    (file_effect formats f).renameTried = false ∧
    (file_effect formats f).removeTried = f.tempExists ∧
    ∀ c : Counters, handle_file formats c f = ⟨c.errors + 1, c.skipped⟩ := by
  have hisf : f.isFile = true := by
    unfold accepted at hacc
    exact ((Bool.and_eq_true _ _).mp hacc).1
  have hdet : ∃ fmt, detect_audio_format f = some fmt ∧ formats.contains fmt = true := by
    unfold accepted at hacc
    rcases (Bool.and_eq_true _ _).mp hacc with ⟨-, h2⟩
    cases hd : detect_audio_format f with
    | none => rw [hd] at h2; simp at h2
    | some fmt =>
      refine ⟨fmt, rfl, ?_⟩
      rw [hd] at h2
      exact h2
  rcases hdet with ⟨fmt, hd, hcont⟩
  have htr : transform_file f = Except.error TransformError.exitNonzero := by
    unfold transform_file
    rw [hexit]
  have hcl : classify_file formats f = FileOutcome.erroredF := by
    simp [classify_file, hisf, hd, hcont, htr]
  refine ⟨hcl, ?_, ?_, ?_⟩
  · simp [file_effect, hacc, transform_effect, hexit]
  · simp [file_effect, hacc, transform_effect, hexit]
  · intro c
    simp [handle_file, hcl]

/-- C3 witness: a concrete accepted file with a nonzero subprocess exit and
a leftover temp artifact: counted as an error, temp removal attempted, no
rename attempted. -/
theorem nonzero_exit_handling_witness :
    classify_file AudioFormat.OGG dErrFile = FileOutcome.erroredF ∧
    (file_effect AudioFormat.OGG dErrFile).renameTried = false ∧
    (file_effect AudioFormat.OGG dErrFile).removeTried = dErrFile.tempExists ∧
    handle_file AudioFormat.OGG ⟨0, 0⟩ dErrFile = ⟨1, 0⟩ := by
  have h := nonzero_exit_handling AudioFormat.OGG dErrFile (by decide) rfl
  exact ⟨h.1, h.2.1, h.2.2.1, h.2.2.2 ⟨0, 0⟩⟩

/-- C6: no per-file transform error aborts the run: the overall operation
always returns `Ok`, and after an errored file the remaining files are still
folded into the counters. -/
theorem per_file_errors_never_abort (formats : AudioFormat) :
    (∀ files : List FileModel,
        process_audio_files formats files = Except.ok (run_counters formats files)) ∧
    ∀ (l r : List FileModel) (f : FileModel),
      classify_file formats f = FileOutcome.erroredF →
      process_audio_files formats (l ++ f :: r) =
        Except.ok (r.foldl (handle_file formats)
          ⟨(run_counters formats l).errors + 1, (run_counters formats l).skipped⟩) := by
  refine ⟨fun files => rfl, ?_⟩
  intro l r f h
  have h1 : run_counters formats (l ++ f :: r)
      = r.foldl (handle_file formats) (handle_file formats (run_counters formats l) f) := by
    simp [run_counters, List.foldl_append]
  have h2 : handle_file formats (run_counters formats l) f
      = ⟨(run_counters formats l).errors + 1, (run_counters formats l).skipped⟩ := by
    simp [handle_file, h]
  unfold process_audio_files
  rw [h1, h2]

/-- C6 witness: a run in which the first file errors still returns `Ok` and
still processes the following file. -/
theorem per_file_errors_never_abort_witness :
    process_audio_files AudioFormat.OGG ([] ++ dErrFile :: [aOggFile]) =
      Except.ok ([aOggFile].foldl (handle_file AudioFormat.OGG)
        ⟨(run_counters AudioFormat.OGG []).errors + 1,
         (run_counters AudioFormat.OGG []).skipped⟩) :=
  (per_file_errors_never_abort AudioFormat.OGG).2 [] [aOggFile] dErrFile (by decide)

/-- C8: for fixed deterministic per-file outcomes and pairwise-distinct
paths, the final counters and the processed count do not depend on the
order in which the pool's workers pick up the files. -/
theorem counters_schedule_independent (formats : AudioFormat)
    (files files2 : List FileModel) (hperm : files.Perm files2)
    (_hdistinct : files.Pairwise (fun a b => a.path ≠ b.path)) :
    run_counters formats files = run_counters formats files2 ∧
    processed_count formats files = processed_count formats files2 := by
  constructor
  · rw [run_counters_eq, run_counters_eq,
      hperm.countP_eq (erroredP formats), hperm.countP_eq (skippedP formats)]
  · unfold processed_count
    exact hperm.countP_eq (processedP formats)

/-- C8 witness: swapping the order of two distinct files leaves the final
counters unchanged. -/
theorem counters_schedule_independent_witness :
    run_counters AudioFormat.OGG [aOggFile, dErrFile]
      = run_counters AudioFormat.OGG [dErrFile, aOggFile] ∧
    processed_count AudioFormat.OGG [aOggFile, dErrFile]
      = processed_count AudioFormat.OGG [dErrFile, aOggFile] :=
  counters_schedule_independent AudioFormat.OGG [aOggFile, dErrFile]
    [dErrFile, aOggFile] (List.Perm.swap dErrFile aOggFile []) (by decide)
